import Mathlib

/-!
Verification of the layered-configuration workflow of the Viper demo
(`Viper/main.go`): source loaders, precedence resolution, validation,
secret masking and the file-watch reload cycle.

Definitions marked "Modelled from the spec" embed behaviour that the demo
delegates to the external viper/pflag/mapstructure libraries (layer merge,
environment scanning, explicitly-set flag capture, typed decoding, watch
dispatch); everything else is translated directly from `Viper/main.go`.
-/

set_option autoImplicit false

namespace ViperDemo

/-- An untyped configuration value: a scalar string, integer, boolean, or
list of strings, as stored in one configuration layer. -/
inductive CVal where
  | s (v : String)
  | i (v : Int)
  | b (v : Bool)
  | strList (v : List String)
  deriving DecidableEq

/-- A configuration layer: an ordered key-value mapping with dot-delimited
keys, e.g. `server.port`. -/
abbrev Layer := List (String × CVal)

/-- Lookup of a key in a layer. -/
def lookupL (layer : Layer) (k : String) : Option CVal :=
  List.lookup k layer

/-- First defined of two optional values (used to state layer fall-through). -/
def firstSome (a b : Option CVal) : Option CVal :=
  match a with
  | some v => some v
  | none => b

/-- The empty key space. -/
def emptyKS : String → Option CVal := fun _ => none

/-- Modelled from the spec: applying a layer to a key space overwrites every
key the layer defines and leaves all other keys untouched (the merge step of
`Resolve`, which lives inside the viper library, not under `src/`). -/
def applyLayer (ks : String → Option CVal) (layer : Layer) : String → Option CVal :=
  fun k =>
    match lookupL layer k with
    | some v => some v
    | none => ks k

/-- Modelled from the spec: `Resolve` starts from an empty key space and
applies `defaults`, then `file`, then `environment`, then `flags`, each layer
overwriting any key it defines (the merge algorithm belongs to the viper
library and is not under `src/`). -/
def resolve (defaults file env flags : Layer) : String → Option CVal :=
  applyLayer (applyLayer (applyLayer (applyLayer emptyKS defaults) file) env) flags

/-- Accumulating decimal parser over characters. -/
def parseNatAux : List Char → Nat → Option Nat
  | [], acc => some acc
  | c :: cs, acc => if c.isDigit then parseNatAux cs (acc * 10 + (c.toNat - 48)) else none

/-- Decimal integer parser (optional leading minus sign). -/
def parseDecInt (str : String) : Option Int :=
  match str.toList with
  | [] => none
  | '-' :: cs =>
    match cs with
    | [] => none
    | _ => (parseNatAux cs 0).map (fun n => -(n : Int))
  | cs => (parseNatAux cs 0).map (fun n => (n : Int))

/-- Modelled from the spec: decoding converts raw strings to integers where
the target field demands it (`mapstructure` decoding, not under `src/`). -/
def decodeIntVal : CVal → Option Int
  | CVal.i n => some n
  | CVal.s str => parseDecInt str
  | _ => none

/-- The defaults layer, translated entry for entry from `setDefaults` in
`Viper/main.go` (src/unnamed/part_007, lines 230-284). -/
def setDefaultsLayer : Layer :=
  [ ("server.host", CVal.s "localhost")
  , ("server.port", CVal.i 8080)
  , ("server.read_timeout", CVal.s "30s")
  , ("server.write_timeout", CVal.s "30s")
  , ("server.max_connections", CVal.i 1000)
  , ("server.tls.enabled", CVal.b false)
  , ("server.tls.cert_file", CVal.s "")
  , ("server.tls.key_file", CVal.s "")
  , ("database.driver", CVal.s "postgres")
  , ("database.host", CVal.s "localhost")
  , ("database.port", CVal.i 5432)
  , ("database.username", CVal.s "user")
  , ("database.password", CVal.s "password")
  , ("database.database", CVal.s "myapp")
  , ("database.ssl_mode", CVal.s "disable")
  , ("database.max_connections", CVal.i 25)
  , ("database.max_idle_time", CVal.s "15m")
  , ("database.conn_max_lifetime", CVal.s "1h")
  , ("redis.host", CVal.s "localhost")
  , ("redis.port", CVal.i 6379)
  , ("redis.password", CVal.s "")
  , ("redis.database", CVal.i 0)
  , ("redis.pool_size", CVal.i 10)
  , ("logging.level", CVal.s "info")
  , ("logging.format", CVal.s "json")
  , ("logging.output", CVal.s "stdout")
  , ("logging.max_size", CVal.i 100)
  , ("logging.max_backups", CVal.i 3)
  , ("logging.max_age", CVal.i 7)
  , ("logging.compress", CVal.b true)
  , ("features.enable_metrics", CVal.b true)
  , ("features.enable_tracing", CVal.b false)
  , ("features.enable_profiling", CVal.b false)
  , ("features.enable_caching", CVal.b true)
  , ("features.beta_features", CVal.b false)
  , ("security.jwt_secret", CVal.s "your-secret-key")
  , ("security.jwt_expiration", CVal.s "24h")
  , ("security.rate_limit_rps", CVal.i 100)
  , ("security.rate_limit_burst", CVal.i 200)
  , ("security.cors_origins", CVal.strList ["http://localhost:3000"])
  , ("security.csrf_secret", CVal.s "csrf-secret-key")
  , ("security.enable_https_only", CVal.b false) ]

/-- The environment-variable name munging of `initConfig` (lines 206-208):
strip the prefix, replace `_` with `.`, compare case-insensitively — realised
here as lowercasing the remainder. -/
def envKeyToPath (rest : List Char) : String :=
  String.mk (rest.map (fun c => if c = '_' then '.' else c.toLower))

/-- Modelled from the spec: `LoadEnvironment` scans process environment
variables whose name starts with the prefix followed by `_`, converts the
remainder to a dot-path, and stores raw string values (viper's
`AutomaticEnv`, not under `src/`). -/
def loadEnvironment (pfx : String) (envVars : List (String × String)) : Layer :=
  envVars.filterMap (fun nv =>
    if (pfx.toList ++ ['_']).isPrefixOf nv.1.toList then
      some (envKeyToPath (nv.1.toList.drop (pfx.toList.length + 1)), CVal.s nv.2)
    else
      none)

/-- Resolution looks each key up in the flags layer first, then environment,
then file, then defaults: the merge-by-overwrite of `resolve` inverts into
highest-precedence-first fall-through. -/
theorem resolve_lookup (d f e fl : Layer) (k : String) :
    resolve d f e fl k =
      firstSome (lookupL fl k)
        (firstSome (lookupL e k) (firstSome (lookupL f k) (lookupL d k))) := by
  unfold resolve applyLayer firstSome emptyKS
  cases lookupL fl k <;> cases lookupL e k <;> cases lookupL f k <;>
    cases lookupL d k <;> rfl

/-- The file layer of the C1 scenario: the file sets `server.port = 9000`. -/
def scenarioFileLayer : Layer := [("server.port", CVal.i 9000)]

/-- The environment of the C1 scenario: `VIPERAPP_SERVER_PORT=9500`. -/
def scenarioEnvVars : List (String × String) := [("VIPERAPP_SERVER_PORT", "9500")]

/-- Claim C1: for every configuration key, the resolved configuration takes
the key's value from the highest-precedence layer that defines it, with
fixed total precedence flags > environment > file > defaults, transitively
and regardless of which layers are empty; in the concrete scenario where
defaults set server.port=8080, the file sets server.port=9000, the
environment variable VIPERAPP_SERVER_PORT=9500 is present and no flag is
given, the resolved server.port equals 9500. -/
theorem c1_layer_precedence :
    (∀ (d f e fl : Layer) (k : String),
      resolve d f e fl k =
        firstSome (lookupL fl k)
          (firstSome (lookupL e k) (firstSome (lookupL f k) (lookupL d k)))) ∧
    lookupL setDefaultsLayer "server.port" = some (CVal.i 8080) ∧
    lookupL scenarioFileLayer "server.port" = some (CVal.i 9000) ∧
    loadEnvironment "VIPERAPP" scenarioEnvVars = [("server.port", CVal.s "9500")] ∧
    resolve setDefaultsLayer scenarioFileLayer
        (loadEnvironment "VIPERAPP" scenarioEnvVars) [] "server.port"
      = some (CVal.s "9500") ∧
    (resolve setDefaultsLayer scenarioFileLayer
        (loadEnvironment "VIPERAPP" scenarioEnvVars) [] "server.port").bind decodeIntVal
      = some 9500 := by
  refine ⟨resolve_lookup, ?_, ?_, ?_, ?_, ?_⟩ <;> decide

/-- `TLSConfig` from `Viper/main.go` (lines 35-39). -/
structure TLSConfig where
  enabled : Bool
  certFile : String
  keyFile : String
  deriving DecidableEq

/-- `ServerConfig` from `Viper/main.go` (lines 26-33); `time.Duration`
fields are integer nanosecond counts. -/
structure ServerConfig where
  host : String
  port : Int
  readTimeout : Int
  writeTimeout : Int
  maxConnections : Int
  tls : TLSConfig
  deriving DecidableEq

/-- `DatabaseConfig` from `Viper/main.go` (lines 41-52). -/
structure DatabaseConfig where
  driver : String
  host : String
  port : Int
  username : String
  password : String
  database : String
  sslMode : String
  maxConnections : Int
  maxIdleTime : Int
  connMaxLifetime : Int
  deriving DecidableEq

/-- `RedisConfig` from `Viper/main.go` (lines 54-60). -/
structure RedisConfig where
  host : String
  port : Int
  password : String
  database : Int
  poolSize : Int
  deriving DecidableEq

/-- `LoggingConfig` from `Viper/main.go` (lines 62-70). -/
structure LoggingConfig where
  level : String
  format : String
  output : String
  maxSize : Int
  maxBackups : Int
  maxAge : Int
  compress : Bool
  deriving DecidableEq

/-- `FeatureFlags` from `Viper/main.go` (lines 72-78). -/
structure FeatureFlags where
  enableMetrics : Bool
  enableTracing : Bool
  enableProfiling : Bool
  enableCaching : Bool
  betaFeatures : Bool
  deriving DecidableEq

/-- `SecurityConfig` from `Viper/main.go` (lines 80-88). -/
structure SecurityConfig where
  jwtSecret : String
  jwtExpiration : Int
  rateLimitRPS : Int
  rateLimitBurst : Int
  corsOrigins : List String
  csrfSecret : String
  enableHTTPSOnly : Bool
  deriving DecidableEq

/-- The resolved configuration struct `Config` from `Viper/main.go`
(lines 17-24). -/
structure Config where
  server : ServerConfig
  database : DatabaseConfig
  redis : RedisConfig
  logging : LoggingConfig
  features : FeatureFlags
  security : SecurityConfig
  deriving DecidableEq

/-- Lowercasing of a string by characters (the effect of `strings.ToLower`
on the ASCII log-level values compared in `validateConfiguration`). -/
def toLowerStr (s : String) : String :=
  String.mk (s.toList.map Char.toLower)

/-- `validLogLevels` from `validateConfiguration` (line 477). -/
def validLogLevels : List String := ["debug", "info", "warn", "error", "fatal"]

/-- Go's `if cond { issues = append(issues, m) }` idiom. -/
def appendIf (xs : List String) (c : Prop) [Decidable c] (m : String) : List String :=
  if c then xs ++ [m] else xs

/-- The violation messages collected by `validateConfiguration` in
`Viper/main.go` (lines 428-518), translated check for check in source
order; the Go function prints the list, here it is returned. -/
def validateConfiguration (c : Config) : List String :=
  let issues : List String := []
  let issues := appendIf issues (c.server.port < 1 ∨ c.server.port > 65535)
    "Server port must be between 1 and 65535"
  let issues := appendIf issues (c.server.maxConnections < 1)
    "Server max_connections must be positive"
  let issues := appendIf issues
    (c.server.tls.enabled ∧ (c.server.tls.certFile = "" ∨ c.server.tls.keyFile = ""))
    "TLS cert_file and key_file are required when TLS is enabled"
  let issues := appendIf issues (c.database.port < 1 ∨ c.database.port > 65535)
    "Database port must be between 1 and 65535"
  let issues := appendIf issues (c.database.maxConnections < 1)
    "Database max_connections must be positive"
  let issues := appendIf issues (c.redis.port < 1 ∨ c.redis.port > 65535)
    "Redis port must be between 1 and 65535"
  let issues := appendIf issues (c.redis.database < 0 ∨ c.redis.database > 15)
    "Redis database must be between 0 and 15"
  let issues := appendIf issues (toLowerStr c.logging.level ∉ validLogLevels)
    "Logging level must be one of: debug, info, warn, error, fatal"
  let issues := appendIf issues (c.security.rateLimitRPS < 1)
    "Security rate_limit_rps must be positive"
  let issues := appendIf issues (c.security.jwtSecret.length < 32)
    "Security jwt_secret should be at least 32 characters for security"
  issues

/-- The validation rule set as the spec lists it: one decidable predicate
("this rule is violated") paired with its message, in the order the source
checks them. -/
def validationRules : List (String × (Config → Bool)) :=
  [ ("Server port must be between 1 and 65535",
      fun c => decide (c.server.port < 1 ∨ c.server.port > 65535))
  , ("Server max_connections must be positive",
      fun c => decide (c.server.maxConnections < 1))
  , ("TLS cert_file and key_file are required when TLS is enabled",
      fun c => decide (c.server.tls.enabled ∧ (c.server.tls.certFile = "" ∨ c.server.tls.keyFile = "")))
  , ("Database port must be between 1 and 65535",
      fun c => decide (c.database.port < 1 ∨ c.database.port > 65535))
  , ("Database max_connections must be positive",
      fun c => decide (c.database.maxConnections < 1))
  , ("Redis port must be between 1 and 65535",
      fun c => decide (c.redis.port < 1 ∨ c.redis.port > 65535))
  , ("Redis database must be between 0 and 15",
      fun c => decide (c.redis.database < 0 ∨ c.redis.database > 15))
  , ("Logging level must be one of: debug, info, warn, error, fatal",
      fun c => decide (toLowerStr c.logging.level ∉ validLogLevels))
  , ("Security rate_limit_rps must be positive",
      fun c => decide (c.security.rateLimitRPS < 1))
  , ("Security jwt_secret should be at least 32 characters for security",
      fun c => decide (c.security.jwtSecret.length < 32)) ]

/-- Pushing one conditional append outwards. -/
theorem appendIf_eq {c : Prop} [Decidable c] (xs : List String) (m : String) :
    appendIf xs c m = xs ++ (if c then [m] else []) := by
  unfold appendIf; split <;> simp

/-- Helper: the list of messages of the violated rules, rule by rule. -/
def ruleMessages (c : Config) : List (String × (Config → Bool)) → List String
  | [] => []
  | r :: rs => (if r.2 c then [r.1] else []) ++ ruleMessages c rs

theorem filter_map_eq_ruleMessages (c : Config) (rs : List (String × (Config → Bool))) :
    (rs.filter (fun r => r.2 c)).map Prod.fst = ruleMessages c rs := by
  induction rs with
  | nil => rfl
  | cons r rs ih =>
    by_cases h : r.2 c <;> simp [ruleMessages, List.filter_cons, h, ih]

theorem validate_eq_ruleMessages (c : Config) :
    validateConfiguration c = ruleMessages c validationRules := by
  simp only [validateConfiguration, appendIf_eq, validationRules, ruleMessages,
    decide_eq_true_eq, List.nil_append, List.append_nil, List.append_assoc]

theorem ruleMessages_eq_nil (c : Config) (rs : List (String × (Config → Bool))) :
    ruleMessages c rs = [] ↔ ∀ r ∈ rs, r.2 c = false := by
  induction rs with
  | nil => simp [ruleMessages]
  | cons r rs ih =>
    by_cases h : r.2 c <;> simp [ruleMessages, h, ih]

/-- Claim C4: `validateConfiguration` never throws (it is a total function)
and collects every violated rule in one pass: each violated rule
contributes exactly its one message to the returned list (the list equals
the messages of the violated rules, so validation never stops at the first
failure), and the list is empty exactly when all rules hold. -/
theorem c4_validate_collects_all (c : Config) :
    validateConfiguration c = (validationRules.filter (fun r => r.2 c)).map Prod.fst ∧
    (validateConfiguration c = [] ↔ ∀ r ∈ validationRules, r.2 c = false) := by
  constructor
  · rw [validate_eq_ruleMessages, filter_map_eq_ruleMessages]
  · rw [validate_eq_ruleMessages, ruleMessages_eq_nil]

/-- A configuration satisfying every validation rule; field values follow
the sample YAML emitted by `createSampleConfigs`. -/
def cfgValid : Config :=
  { server :=
      { host := "localhost", port := 8080, readTimeout := 30000000000,
        writeTimeout := 30000000000, maxConnections := 1000,
        tls := { enabled := false, certFile := "", keyFile := "" } }
  , database :=
      { driver := "postgres", host := "localhost", port := 5432,
        username := "myapp_user", password := "secure_password",
        database := "myapp_db", sslMode := "require", maxConnections := 25,
        maxIdleTime := 900000000000, connMaxLifetime := 3600000000000 }
  , redis :=
      { host := "localhost", port := 6379, password := "", database := 0,
        poolSize := 10 }
  , logging :=
      { level := "info", format := "json", output := "stdout", maxSize := 100,
        maxBackups := 3, maxAge := 7, compress := true }
  , features :=
      { enableMetrics := true, enableTracing := false, enableProfiling := false,
        enableCaching := true, betaFeatures := false }
  , security :=
      { jwtSecret := "your-super-secret-jwt-key-here-make-it-long",
        jwtExpiration := 86400000000000, rateLimitRPS := 100,
        rateLimitBurst := 200, corsOrigins := ["http://localhost:3000"],
        csrfSecret := "csrf-secret-key-here", enableHTTPSOnly := false } }

/-- Claim C4 witness: the characterisation evaluated at `cfgValid`. -/
theorem c4_validate_collects_all_witness :
    validateConfiguration cfgValid
        = (validationRules.filter (fun r => r.2 cfgValid)).map Prod.fst ∧
    (validateConfiguration cfgValid = [] ↔
      ∀ r ∈ validationRules, r.2 cfgValid = false) :=
  c4_validate_collects_all cfgValid

/-- Claim C5: on a configuration that satisfies every validation rule except
that server.port = 70000, validation yields exactly the one server-port
violation; on a configuration satisfying every rule (in particular a
server.port inside 1..65535), validation yields the empty list. -/
theorem c5_single_port_violation (c : Config)
    (hmc : ¬ c.server.maxConnections < 1)
    (htls : ¬ (c.server.tls.enabled ∧ (c.server.tls.certFile = "" ∨ c.server.tls.keyFile = "")))
    (hdbp : ¬ (c.database.port < 1 ∨ c.database.port > 65535))
    (hdbm : ¬ c.database.maxConnections < 1)
    (hrp : ¬ (c.redis.port < 1 ∨ c.redis.port > 65535))
    (hrd : ¬ (c.redis.database < 0 ∨ c.redis.database > 15))
    (hll : toLowerStr c.logging.level ∈ validLogLevels)
    (hrl : ¬ c.security.rateLimitRPS < 1)
    (hjwt : ¬ c.security.jwtSecret.length < 32) :
    (c.server.port = 70000 →
      validateConfiguration c = ["Server port must be between 1 and 65535"]) ∧
    (¬ (c.server.port < 1 ∨ c.server.port > 65535) →
      validateConfiguration c = []) := by
  constructor
  · intro hp
    rw [validate_eq_ruleMessages]
    simp only [validationRules, ruleMessages, decide_eq_true_eq]
    rw [if_pos (Or.inr (by rw [hp]; norm_num)), if_neg hmc, if_neg htls,
      if_neg hdbp, if_neg hdbm, if_neg hrp, if_neg hrd,
      if_neg (not_not_intro hll), if_neg hrl, if_neg hjwt]
    simp
  · intro hport
    rw [validate_eq_ruleMessages]
    simp only [validationRules, ruleMessages, decide_eq_true_eq]
    rw [if_neg hport, if_neg hmc, if_neg htls, if_neg hdbp, if_neg hdbm,
      if_neg hrp, if_neg hrd, if_neg (not_not_intro hll), if_neg hrl,
      if_neg hjwt]
    simp

/-- `cfgValid` with the out-of-range server port of the C5 scenario. -/
def cfg70000 : Config :=
  { cfgValid with server := { cfgValid.server with port := 70000 } }

/-- Claim C5 witness: the two halves evaluated on concrete configurations. -/
theorem c5_single_port_violation_witness :
    validateConfiguration cfg70000 = ["Server port must be between 1 and 65535"] ∧
    validateConfiguration cfgValid = [] := by
  constructor
  · exact (c5_single_port_violation cfg70000 (by decide) (by decide) (by decide)
      (by decide) (by decide) (by decide) (by decide) (by decide) (by decide)).1
      (by decide)
  · exact (c5_single_port_violation cfgValid (by decide) (by decide) (by decide)
      (by decide) (by decide) (by decide) (by decide) (by decide) (by decide)).2
      (by decide)

/-- `maskPassword` from `Viper/main.go` (lines 852-860): the empty secret is
rendered as "(empty)", secrets of at most four characters as all asterisks,
longer secrets as the first two characters, asterisks, and the last two
characters. -/
def maskPassword (password : String) : String :=
  if password = "" then "(empty)"
  else if password.length ≤ 4 then String.mk (List.replicate password.length '*')
  else String.mk (password.toList.take 2
    ++ List.replicate (password.length - 4) '*'
    ++ password.toList.drop (password.length - 2))

@[simp] theorem length_mk (l : List Char) : (String.mk l).length = l.length := rfl

@[simp] theorem toList_mk (l : List Char) : (String.mk l).toList = l := rfl

theorem toList_length (s : String) : s.toList.length = s.length := rfl

/-- Claim C6 counterexample: the empty string is a secret value of length
at most 4 (the default redis password is empty), yet `maskPassword` renders
it as the placeholder "(empty)", which is not made of asterisks only. -/
theorem c6_mask_counterexample :
    maskPassword "" = "(empty)" ∧
    "".length ≤ 4 ∧
    ¬ (∀ ch ∈ (maskPassword "").toList, ch = '*') := by
  decide

/-- Claim C6 as amended: a nonempty secret of length at most 4 is rendered
as asterisks only; a secret longer than 4 is rendered at its own length
with its first two characters, then asterisks, then its last two
characters; the empty secret alone is rendered as the placeholder
"(empty)". -/
theorem c6_mask_shape (s : String) :
    (s ≠ "" → s.length ≤ 4 →
      (maskPassword s).toList = List.replicate s.length '*') ∧
    (s.length > 4 →
      (maskPassword s).length = s.length ∧
      (maskPassword s).toList.take 2 = s.toList.take 2 ∧
      (maskPassword s).toList.drop (s.length - 2) = s.toList.drop (s.length - 2) ∧
      ∀ ch ∈ ((maskPassword s).toList.drop 2).take (s.length - 4), ch = '*') ∧
    maskPassword "" = "(empty)" := by
  refine ⟨?_, ?_, rfl⟩
  · intro hne h4
    unfold maskPassword
    rw [if_neg hne, if_pos h4, toList_mk]
  · intro h4
    have hne : s ≠ "" := by
      intro h; subst h; simp at h4
    have hlen : s.toList.length = s.length := rfl
    have hdecomp : (maskPassword s).toList =
        s.toList.take 2 ++ List.replicate (s.length - 4) '*'
          ++ s.toList.drop (s.length - 2) := by
      unfold maskPassword
      rw [if_neg hne, if_neg (by omega : ¬ s.length ≤ 4), toList_mk]
    have ht2 : (s.toList.take 2).length = 2 := by
      rw [List.length_take]; omega
    have hA : (s.toList.take 2 ++ List.replicate (s.length - 4) '*').length
        = s.length - 2 := by
      simp only [List.length_append, List.length_replicate, ht2]
      omega
    refine ⟨?_, ?_, ?_, ?_⟩
    · calc (maskPassword s).length = (maskPassword s).toList.length := rfl
        _ = (s.toList.take 2 ++ List.replicate (s.length - 4) '*'
              ++ s.toList.drop (s.length - 2)).length := by rw [hdecomp]
        _ = s.length := by
              simp only [List.length_append, List.length_take,
                List.length_replicate, List.length_drop, hlen]
              omega
    · rw [hdecomp, List.append_assoc, List.take_append_eq_append_take, ht2,
        Nat.sub_self, List.take_zero, List.append_nil, List.take_take,
        Nat.min_self]
    · rw [hdecomp, List.drop_append_eq_append_drop,
        List.drop_eq_nil_of_le (le_of_eq hA), hA, Nat.sub_self, List.drop_zero,
        List.nil_append]
    · rw [hdecomp, List.append_assoc, List.drop_append_eq_append_drop,
        List.drop_eq_nil_of_le (le_of_eq ht2), List.nil_append, ht2,
        Nat.sub_self, List.drop_zero, List.take_append_eq_append_take,
        List.take_replicate, Nat.min_self, List.length_replicate,
        Nat.sub_self, List.take_zero, List.append_nil]
      intro ch hch
      exact List.eq_of_mem_replicate hch

/-- Claim C6 witness: the amended shape evaluated at a short and a long
secret. -/
theorem c6_mask_shape_witness :
    (maskPassword "abc").toList = List.replicate ("abc".length) '*' ∧
    (maskPassword "supersecret").length = "supersecret".length ∧
    (maskPassword "supersecret").toList.take 2 = "supersecret".toList.take 2 := by
  refine ⟨(c6_mask_shape "abc").1 (by decide) (by decide), ?_, ?_⟩
  · exact ((c6_mask_shape "supersecret").2.1 (by decide)).1
  · exact ((c6_mask_shape "supersecret").2.1 (by decide)).2.1

/-- Claim C10: for every nonempty input the masked output has exactly the
input's length (so the masked output reveals the secret's length), and the
empty string is the only input whose output, "(empty)", has a different
length. -/
theorem c10_mask_preserves_length :
    (∀ p : String, p ≠ "" → (maskPassword p).length = p.length) ∧
    maskPassword "" = "(empty)" ∧
    (maskPassword "").length ≠ ("" : String).length := by
  refine ⟨?_, rfl, by decide⟩
  intro p hp
  unfold maskPassword
  rw [if_neg hp]
  by_cases h4 : p.length ≤ 4
  · rw [if_pos h4, length_mk, List.length_replicate]
  · rw [if_neg h4, length_mk]
    have hlen : p.toList.length = p.length := rfl
    simp only [List.length_append, List.length_take, List.length_replicate,
      List.length_drop, hlen]
    omega

/-- Claim C10 witness: length preservation at a concrete nonempty secret. -/
theorem c10_mask_preserves_length_witness :
    "supersecret" ≠ "" ∧ (maskPassword "supersecret").length = "supersecret".length :=
  ⟨by decide, c10_mask_preserves_length.1 "supersecret" (by decide)⟩

/-- One bindable command-line flag: its name, its declared default value,
and the value explicitly passed by the caller, when any. -/
structure FlagSpec where
  name : String
  defaultVal : CVal
  setVal : Option CVal
  deriving DecidableEq

/-- Modelled from the spec: `LoadFlags` captures only the flags the caller
explicitly set; a flag the caller did not pass contributes nothing, so its
declared default never enters the layer (the explicit-set tracking lives in
viper/pflag, bound by `init` in `Viper/main.go` lines 159-190, not under
`src/`). -/
def loadFlags (fs : List FlagSpec) : Layer :=
  fs.filterMap (fun f => f.setVal.map (fun v => (f.name, v)))

theorem lookup_loadFlags_eq_none (fs : List FlagSpec) (k : String)
    (h : ∀ f ∈ fs, f.name = k → f.setVal = none) :
    lookupL (loadFlags fs) k = none := by
  induction fs with
  | nil => rfl
  | cons f tl ih =>
    have htl : ∀ g ∈ tl, g.name = k → g.setVal = none :=
      fun g hg => h g (List.mem_cons_of_mem _ hg)
    cases hsv : f.setVal with
    | none =>
      simp only [loadFlags, List.filterMap_cons, hsv, Option.map_none']
      exact ih htl
    | some v =>
      have hne : f.name ≠ k := by
        intro he
        have := h f (List.mem_cons_self _ _) he
        rw [hsv] at this
        exact Option.noConfusion this
      have hbeq : (k == f.name) = false := by
        rw [beq_eq_false_iff_ne]
        exact fun he => hne he.symm
      simp only [loadFlags, List.filterMap_cons, hsv, Option.map_some']
      simp only [lookupL, List.lookup, hbeq]
      exact ih htl

/-- Claim C2: the flags layer contains only flags explicitly set by the
caller — every entry comes from an explicitly set flag; for a flag name no
caller set, no value (in particular not the declared default) is present
under that name, lookup yields nothing, and resolution behaves exactly as
with an empty flags layer, so an unset flag never outranks the environment,
file or defaults layers. -/
theorem c2_unset_flags_do_not_leak (fs : List FlagSpec) (k : String)
    (h : ∀ f ∈ fs, f.name = k → f.setVal = none) :
    (∀ p ∈ loadFlags fs, ∃ f ∈ fs, f.name = p.1 ∧ f.setVal = some p.2) ∧
    (∀ v : CVal, (k, v) ∉ loadFlags fs) ∧
    lookupL (loadFlags fs) k = none ∧
    (∀ d f e : Layer, resolve d f e (loadFlags fs) k = resolve d f e [] k) := by
  refine ⟨?_, ?_, lookup_loadFlags_eq_none fs k h, ?_⟩
  · intro p hp
    rw [loadFlags, List.mem_filterMap] at hp
    obtain ⟨f, hf, hfv⟩ := hp
    cases hsv : f.setVal with
    | none => rw [hsv] at hfv; exact Option.noConfusion hfv
    | some w =>
      rw [hsv, Option.map_some'] at hfv
      obtain ⟨h1, h2⟩ := Prod.mk.injEq .. ▸ Option.some.injEq .. ▸ hfv
      exact ⟨f, hf, by rw [← h1], by rw [hsv, h2]⟩
  · intro v hv
    rw [loadFlags, List.mem_filterMap] at hv
    obtain ⟨f, hf, hfv⟩ := hv
    cases hsv : f.setVal with
    | none => rw [hsv] at hfv; exact Option.noConfusion hfv
    | some w =>
      rw [hsv, Option.map_some'] at hfv
      have h1 : f.name = k := (Prod.mk.injEq .. ▸ Option.some.injEq .. ▸ hfv).1
      have := h f hf h1
      rw [hsv] at this
      exact Option.noConfusion this
  · intro d f e
    have hl := lookup_loadFlags_eq_none fs k h
    simp only [resolve, applyLayer, hl]
    rfl

/-- A flag set where `server.port` is declared with default 8080 and not
passed by the caller, and `server.host` is explicitly set. -/
def demoFlagSet : List FlagSpec :=
  [ { name := "server.port", defaultVal := CVal.i 8080, setVal := none }
  , { name := "server.host", defaultVal := CVal.s "localhost",
      setVal := some (CVal.s "example.com") } ]

/-- Claim C2 witness: the unset `server.port` flag leaves no trace in the
flags layer and resolution falls through exactly as with no flags at all. -/
theorem c2_unset_flags_do_not_leak_witness :
    ((CVal.i 8080 : CVal) = CVal.i 8080 →
      ("server.port", CVal.i 8080) ∉ loadFlags demoFlagSet) ∧
    lookupL (loadFlags demoFlagSet) "server.port" = none ∧
    resolve setDefaultsLayer scenarioFileLayer [] (loadFlags demoFlagSet)
        "server.port"
      = resolve setDefaultsLayer scenarioFileLayer [] [] "server.port" := by
  have h := c2_unset_flags_do_not_leak demoFlagSet "server.port" (by decide)
  exact ⟨fun _ => h.2.1 (CVal.i 8080), h.2.2.1,
    h.2.2.2 setDefaultsLayer scenarioFileLayer []⟩

/-- Result of viper's `ReadInConfig`: a successfully parsed file layer, a
missing config file, or any other read error (malformed syntax). -/
inductive ReadResult where
  | ok (layer : Layer)
  | notFound
  | readErr (msg : String)
  deriving DecidableEq

/-- Which console note `initConfig` prints for the file read outcome. -/
inductive ConfigNote where
  | usingFile
  | noFileFound
  | readFailed (msg : String)
  deriving DecidableEq

/-- Outcome of startup configuration loading: `fatal` models
`log.Fatalf` (process does not start), `proceed` models returning with the
decoded configuration installed. -/
inductive InitOutcome where
  | fatal (msg : String)
  | proceed (cfg : Config) (note : ConfigNote)
  deriving DecidableEq

/-- The file layer contributed by a read outcome: reading keeps the parsed
layer; a missing or malformed file contributes nothing. -/
def fileLayerOf : ReadResult → Layer
  | ReadResult.ok l => l
  | _ => []

/-- The console note `initConfig` prints for each read outcome
(lines 214-222). -/
def noteOf : ReadResult → ConfigNote
  | ReadResult.ok _ => ConfigNote.usingFile
  | ReadResult.notFound => ConfigNote.noFileFound
  | ReadResult.readErr m => ConfigNote.readFailed m

/-- `initConfig` from `Viper/main.go` (lines 192-228): the file read result
is examined only to choose a console note — a not-found error and any other
read error (malformed syntax) both continue; then the merged key space is
decoded, and only a decode failure is fatal (`log.Fatalf`, line 226). The
viper file read arrives as a `ReadResult` and the typed decode as a
value-returning `unmarshal` over the merged key space. -/
def initConfig (d e fl : Layer) (r : ReadResult)
    (unmarshal : (String → Option CVal) → Except String Config) : InitOutcome :=
  match unmarshal (resolve d (fileLayerOf r) e fl) with
  | Except.error m => InitOutcome.fatal m
  | Except.ok cfg => InitOutcome.proceed cfg (noteOf r)

/-- A decode that succeeds with `cfgValid` on any key space. -/
def unmarshalOk : (String → Option CVal) → Except String Config :=
  fun _ => Except.ok cfgValid

/-- A decode that fails on any key space. -/
def unmarshalErr : (String → Option CVal) → Except String Config :=
  fun _ => Except.error "decode failure"

/-- Claim C3 counterexample: with a config file that exists but is
malformed, `initConfig` prints the read error and proceeds to serve a
configuration resolved without the file layer — startup is not fatal, which
contradicts the claim that a parse error must prevent the process from
proceeding. -/
theorem c3_parse_error_counterexample :
    initConfig setDefaultsLayer [] []
        (ReadResult.readErr "yaml: could not find expected directive name")
        unmarshalOk
      = InitOutcome.proceed cfgValid
          (ConfigNote.readFailed "yaml: could not find expected directive name") :=
  rfl

/-- Claim C3 as amended: at startup a malformed config file is reported
with an error note but is not fatal — the process continues with the
defaults, environment and flags layers, exactly the same recovery as for a
missing file (which prints a warning note); startup aborts only when
decoding the merged configuration fails. -/
theorem c3_startup_error_handling (d e fl : Layer)
    (u : (String → Option CVal) → Except String Config) (msg : String) :
    (∀ cfg, u (resolve d [] e fl) = Except.ok cfg →
      initConfig d e fl (ReadResult.readErr msg) u
          = InitOutcome.proceed cfg (ConfigNote.readFailed msg) ∧
      initConfig d e fl ReadResult.notFound u
          = InitOutcome.proceed cfg ConfigNote.noFileFound) ∧
    (∀ m, u (resolve d [] e fl) = Except.error m →
      initConfig d e fl (ReadResult.readErr msg) u = InitOutcome.fatal m ∧
      initConfig d e fl ReadResult.notFound u = InitOutcome.fatal m) := by
  constructor
  · intro cfg hu
    constructor <;> simp [initConfig, fileLayerOf, noteOf, hu]
  · intro m hu
    constructor <;> simp [initConfig, fileLayerOf, noteOf, hu]

/-- Claim C3 amended witness: the three startup outcomes at concrete
inputs. -/
theorem c3_startup_error_handling_witness :
    initConfig setDefaultsLayer [] [] (ReadResult.readErr "yaml: bad")
        unmarshalOk
      = InitOutcome.proceed cfgValid (ConfigNote.readFailed "yaml: bad") ∧
    initConfig setDefaultsLayer [] [] ReadResult.notFound unmarshalOk
      = InitOutcome.proceed cfgValid ConfigNote.noFileFound ∧
    initConfig setDefaultsLayer [] [] (ReadResult.readErr "yaml: bad")
        unmarshalErr
      = InitOutcome.fatal "decode failure" := by
  have h1 := (c3_startup_error_handling setDefaultsLayer [] [] unmarshalOk
    "yaml: bad").1 cfgValid rfl
  have h2 := (c3_startup_error_handling setDefaultsLayer [] [] unmarshalErr
    "yaml: bad").2 "decode failure" rfl
  exact ⟨h1.1, h1.2, h2.1⟩

/-- One line of the change report printed by `compareConfigs`: the five
fields the source compares, with old and new values. -/
inductive DiffEntry where
  | serverPort (oldV newV : Int)
  | serverHost (oldV newV : String)
  | databaseHost (oldV newV : String)
  | loggingLevel (oldV newV : String)
  | betaFeatures (oldV newV : Bool)
  deriving DecidableEq

/-- `compareConfigs` from `Viper/main.go` (lines 862-879): it compares, in
order, exactly server.port, server.host, database.host, logging.level and
features.beta_features, printing one line per changed field; the printed
lines are returned here as `DiffEntry` values. -/
def compareConfigs (old new : Config) : List DiffEntry :=
  (if old.server.port ≠ new.server.port then
    [DiffEntry.serverPort old.server.port new.server.port] else [])
  ++ (if old.server.host ≠ new.server.host then
    [DiffEntry.serverHost old.server.host new.server.host] else [])
  ++ (if old.database.host ≠ new.database.host then
    [DiffEntry.databaseHost old.database.host new.database.host] else [])
  ++ (if old.logging.level ≠ new.logging.level then
    [DiffEntry.loggingLevel old.logging.level new.logging.level] else [])
  ++ (if old.features.betaFeatures ≠ new.features.betaFeatures then
    [DiffEntry.betaFeatures old.features.betaFeatures new.features.betaFeatures]
    else [])

/-- The body of the `OnConfigChange` callback in `watchConfiguration`
(`Viper/main.go`, lines 540-551): remember the old config, attempt the
reload (`viper.Unmarshal` modelled as a value-returning decode); on error
print and return, keeping the previous config with no diff emitted; on
success install the new config and emit the field diff. -/
def watchCycle (current : Config) (reload : Except String Config) :
    Config × Option (List DiffEntry) :=
  match reload with
  | Except.error _ => (current, none)
  | Except.ok newCfg => (newCfg, some (compareConfigs current newCfg))

/-- Modelled from the spec: one `Watch` cycle refreshes only the file
layer, re-resolves with the original defaults/environment/flags layers and,
on a file read failure, keeps the previous configuration without invoking
the change callback (this dispatch lives in viper's `WatchConfig`, not
under `src/`); a successfully read file layer is handed to the embedded
callback body `watchCycle`. -/
def watchStep (d e fl : Layer) (current : Config) (r : ReadResult)
    (unmarshal : (String → Option CVal) → Except String Config) :
    Config × Option (List DiffEntry) :=
  match r with
  | ReadResult.ok l => watchCycle current (unmarshal (resolve d l e fl))
  | _ => (current, none)

/-- Configurations differing only in redis.port. -/
def cfgRedis : Config :=
  { cfgValid with redis := { cfgValid.redis with port := 6380 } }

/-- Claim C7 counterexample: two configurations that differ in the leaf
scalar field redis.port produce an empty diff, so the diff does not cover
exactly the leaf scalar fields whose values differ. -/
theorem c7_diff_counterexample :
    cfgValid.redis.port ≠ cfgRedis.redis.port ∧
    compareConfigs cfgValid cfgRedis = [] := by
  decide

/-- Claim C7 as amended: when old and new snapshots differ only in
logging.level (from "info" to "debug"), the watch cycle installs the new
snapshot and emits exactly the logging.level diff entry; in general the
diff covers exactly the five tracked fields server.port, server.host,
database.host, logging.level and features.beta_features — it is empty
precisely when those five agree. -/
theorem c7_diff_tracked_fields (old newCfg : Config)
    (hnew : newCfg = { old with logging := { old.logging with level := "debug" } })
    (hold : old.logging.level = "info") :
    watchCycle old (Except.ok newCfg)
        = (newCfg, some [DiffEntry.loggingLevel "info" "debug"]) ∧
    (∀ a b : Config, compareConfigs a b = [] ↔
      (a.server.port = b.server.port ∧ a.server.host = b.server.host ∧
       a.database.host = b.database.host ∧ a.logging.level = b.logging.level ∧
       a.features.betaFeatures = b.features.betaFeatures)) := by
  constructor
  · subst hnew
    have hne : old.logging.level ≠ "debug" := by rw [hold]; decide
    simp [watchCycle, compareConfigs, hold, hne]
  · intro a b
    by_cases h1 : a.server.port = b.server.port <;>
      by_cases h2 : a.server.host = b.server.host <;>
      by_cases h3 : a.database.host = b.database.host <;>
      by_cases h4 : a.logging.level = b.logging.level <;>
      by_cases h5 : a.features.betaFeatures = b.features.betaFeatures <;>
      simp [compareConfigs, h1, h2, h3, h4, h5]

/-- `cfgValid` after a file edit that changes only logging.level. -/
def cfgDebug : Config :=
  { cfgValid with logging := { cfgValid.logging with level := "debug" } }

/-- Claim C7 amended witness: the logging.level scenario and the
five-field characterisation at concrete configurations. -/
theorem c7_diff_tracked_fields_witness :
    watchCycle cfgValid (Except.ok cfgDebug)
        = (cfgDebug, some [DiffEntry.loggingLevel "info" "debug"]) ∧
    (compareConfigs cfgValid cfgRedis = [] ↔
      (cfgValid.server.port = cfgRedis.server.port ∧
       cfgValid.server.host = cfgRedis.server.host ∧
       cfgValid.database.host = cfgRedis.database.host ∧
       cfgValid.logging.level = cfgRedis.logging.level ∧
       cfgValid.features.betaFeatures = cfgRedis.features.betaFeatures)) := by
  have h := c7_diff_tracked_fields cfgValid cfgDebug rfl rfl
  exact ⟨h.1, h.2 cfgValid cfgRedis⟩

/-- Claim C8: during a watch cycle, a file read failure (malformed edit)
keeps the previously resolved configuration active and unchanged and does
not invoke the change callback; likewise, when the refreshed file layer is
read but re-decoding fails, the error is swallowed after logging, the
previous configuration stays installed and no diff is emitted. -/
theorem c8_watch_keeps_previous (d e fl : Layer) (current : Config)
    (msg : String) (l : Layer)
    (u : (String → Option CVal) → Except String Config) :
    watchStep d e fl current (ReadResult.readErr msg) u = (current, none) ∧
    (∀ m, u (resolve d l e fl) = Except.error m →
      watchStep d e fl current (ReadResult.ok l) u = (current, none)) := by
  constructor
  · rfl
  · intro m hm
    simp [watchStep, watchCycle, hm]

/-- Claim C8 witness: both failure paths at concrete inputs. -/
theorem c8_watch_keeps_previous_witness :
    watchStep setDefaultsLayer [] [] cfgValid
        (ReadResult.readErr "yaml: bad") unmarshalErr = (cfgValid, none) ∧
    watchStep setDefaultsLayer [] [] cfgValid
        (ReadResult.ok scenarioFileLayer) unmarshalErr = (cfgValid, none) := by
  have h := c8_watch_keeps_previous setDefaultsLayer [] [] cfgValid "yaml: bad"
    scenarioFileLayer unmarshalErr
  exact ⟨h.1, h.2 "decode failure" rfl⟩

end ViperDemo
